import Mathlib

/-!
Shallow embedding of the thoughts-reframed backend core:
the session store (src/services/sessionService.js), the Whisper retry
engine (speechToTextService.js: transcribeWithWhisper), and the pipeline
orchestrator (src/services/processingService.js: processAudioPipeline),
together with the upload/trigger boundary of src/routes/sessions.js.

Modelling conventions:
* JSON `null` for an optional field is `Option.none`; a JSON key that is
  absent from a record (such as `updatedAt` before the first update) is
  also `none`, with creation and update code distinguishing the two the
  same way the JS object spread does.
* ISO timestamp strings produced by `new Date().toISOString()` are
  modelled as natural numbers (milliseconds since the epoch); string
  comparison of ISO timestamps agrees with numeric comparison.
* The file-per-session directory is modelled as a list of session
  records; `fs.writeFileSync` on an existing id rewrites that record in
  place, `readdirSync` enumerates the list.
-/

/-- An entry of `session.audioFiles`, as pushed by the upload route
(src/routes/sessions.js lines 100-107). -/
structure AudioFile where
  filename : String
  originalName : String
  path : String
  size : Nat
  mimetype : String
  uploadedAt : Nat
  deriving Repr, DecidableEq

/-- The session record written by sessionService.js. `updatedAt` is absent
(`none`) on a freshly created record and set by every `updateSession`. -/
structure Session where
  id : String
  userId : String
  createdAt : Nat
  status : String
  audioFiles : List AudioFile
  transcript : Option String
  reframedText : Option String
  generatedAudioUrl : Option String
  error : Option String
  updatedAt : Option Nat
  deriving Repr, DecidableEq

/-- A partial update object passed to `updateSession` (the JS `updates`
argument). An outer `none` means the key is absent from the update object;
for the nullable fields `some none` means the key is present with value
`null` (the pipeline really does write `generatedAudioUrl: null` when TTS
fails). Call sites never update `id`, `userId`, `createdAt` or
`updatedAt`, so those keys are not representable. -/
structure SessionUpdate where
  status : Option String := none
  audioFiles : Option (List AudioFile) := none
  transcript : Option (Option String) := none
  reframedText : Option (Option String) := none
  generatedAudioUrl : Option (Option String) := none
  error : Option (Option String) := none
  deriving Repr, DecidableEq

/-- The object spread `{ ...session, ...updates, updatedAt: now }` of
sessionService.js lines 59-63. -/
def applyUpdate (s : Session) (u : SessionUpdate) (now : Nat) : Session :=
  { id := s.id
    userId := s.userId
    createdAt := s.createdAt
    status := u.status.getD s.status
    audioFiles := u.audioFiles.getD s.audioFiles
    transcript := u.transcript.getD s.transcript
    reframedText := u.reframedText.getD s.reframedText
    generatedAudioUrl := u.generatedAudioUrl.getD s.generatedAudioUrl
    error := u.error.getD s.error
    updatedAt := some now }

/-- The sessions directory: one record per stored session file. -/
abbrev Store := List Session

/-- sessionService.js `getSession`: read `<id>.json` if it exists. -/
def getSession (store : Store) (sessionId : String) : Option Session :=
  store.find? (fun s => s.id == sessionId)

/-- Rewrite the record stored under `sessionId` (the `writeFileSync` of an
updated session file). -/
def updStore (store : Store) (sessionId : String) (s : Session) : Store :=
  store.map (fun t => if t.id == sessionId then s else t)

/-- sessionService.js `updateSession` (lines 52-69): read-modify-write;
throws `Session not found` when the record does not exist, otherwise
merges, refreshes `updatedAt`, persists and returns the new full record. -/
def updateSession (store : Store) (sessionId : String) (u : SessionUpdate)
    (now : Nat) : Except String (Store × Session) :=
  match getSession store sessionId with
  | none => Except.error "Session not found"
  | some s =>
      let s2 := applyUpdate s u now
      Except.ok (updStore store sessionId s2, s2)

/-- sessionService.js `createSession` (lines 21-39): the fresh record has
status `created`, empty `audioFiles`, all result fields `null`, and no
`updatedAt` key at all. The uuid is supplied by the caller here (the JS
code draws it from `uuidv4()`). -/
def createSession (store : Store) (sessionId userId : String) (now : Nat) :
    Store × Session :=
  let s : Session :=
    { id := sessionId
      userId := userId
      createdAt := now
      status := "created"
      audioFiles := []
      transcript := none
      reframedText := none
      generatedAudioUrl := none
      error := none
      updatedAt := none }
  (s :: store, s)

/-- The descending-by-`createdAt` order used by the sort comparator
`new Date(b.createdAt) - new Date(a.createdAt)` of sessionService.js
line 95 (newest first). -/
def newestFirst (a b : Session) : Prop := b.createdAt ≤ a.createdAt

instance : DecidableRel newestFirst := fun a b => Nat.decLe b.createdAt a.createdAt

instance : IsTotal Session newestFirst :=
  ⟨fun a b => (Nat.le_total b.createdAt a.createdAt).imp id id⟩

instance : IsTrans Session newestFirst :=
  ⟨fun _ _ _ h1 h2 => Nat.le_trans h2 h1⟩

/-- sessionService.js `getUserSessions` (lines 71-98): scan every stored
session, keep those whose `userId` matches, sort newest `createdAt`
first. -/
def getUserSessions (store : Store) (userId : String) : List Session :=
  List.insertionSort newestFirst (store.filter (fun s => s.userId == userId))

/-!
Retry/backoff engine: `transcribeWithWhisper` of speechToTextService.js.
An attempt either returns the transcription text or throws a JS error
object; the fields of that object consulted by the catch block are
modelled below.
-/

/-- The JS error thrown by an attempt, restricted to the fields the catch
block reads: `message`, the first defined of
`code / cause.code / error.code` (collapsed into one field), and the
first defined of `response.status / status`. -/
structure JsError where
  message : String
  code : Option String := none
  status : Option Nat := none
  deriving Repr, DecidableEq

/-- Whether the character list `needle` occurs at the head of `hay`. -/
def startsWithChars : List Char → List Char → Bool
  | _, [] => true
  | [], _ :: _ => false
  | a :: as, b :: bs => a == b && startsWithChars as bs

/-- Whether `needle` occurs contiguously anywhere inside `hay`. -/
def containsChars : List Char → List Char → Bool
  | [], needle => needle.isEmpty
  | a :: as, needle => startsWithChars (a :: as) needle || containsChars as needle

/-- `String.prototype.includes(sub)`: `sub` occurs as a contiguous
substring of `s`. -/
def jsIncludes (s sub : String) : Bool := containsChars s.data sub.data

/-- `error.message || 'Unknown error'` (line 86): the empty string is
falsy in JS. -/
def errMessage (e : JsError) : String :=
  if e.message = "" then "Unknown error" else e.message

/-- Line 91: `statusCode === 429`. -/
def isRateLimit (e : JsError) : Bool := e.status == some 429

/-- Lines 92-96: connection-level error codes or message substrings. -/
def isConnectionError (e : JsError) : Bool :=
  e.code == some "ECONNRESET" || e.code == some "ETIMEDOUT" ||
    jsIncludes e.message "Connection" || jsIncludes e.message "socket hang up" ||
    jsIncludes e.message "timeout"

/-- Line 37: `const maxRetries = 3`. -/
def maxRetries : Nat := 3

deriving instance DecidableEq for Except

/-- One observable outcome of the whole retry loop: the returned text or
thrown message, the backoff waits performed (in ms, in order), and the
number of attempts made. -/
structure WhisperRun where
  result : Except String String
  waits : List Nat
  attempts : Nat
  deriving Repr, DecidableEq

/-- The retry loop body of `transcribeWithWhisper` (lines 39-132).
`call n` is the outcome of the n-th attempt (the axios request).
`fuel` counts the loop iterations still permitted by `attempt <= maxRetries`;
`lastMsg` carries `lastError`'s message for the unreachable post-loop
throw of line 135. -/
def whisperGo (call : Nat → Except JsError String) :
    Nat → Nat → List Nat → String → WhisperRun
  | 0, attempt, waits, lastMsg =>
      { result := Except.error
          ("Transcription failed after " ++ toString maxRetries ++ " attempts: " ++ lastMsg)
        waits := waits
        attempts := attempt - 1 }
  | fuel + 1, attempt, waits, _ =>
      match call attempt with
      | Except.ok transcription =>
          { result := Except.ok transcription, waits := waits, attempts := attempt }
      | Except.error e =>
          let msg := errMessage e
          if attempt < maxRetries && isRateLimit e then
            whisperGo call fuel (attempt + 1)
              (waits ++ [min (attempt * 10000) 60000]) msg
          else if attempt < maxRetries && isConnectionError e then
            whisperGo call fuel (attempt + 1) (waits ++ [attempt * 3000]) msg
          else if attempt == maxRetries then
            if isRateLimit e then
              { result := Except.error
                  "Transcription failed: Rate limit exceeded. Please try again in a few minutes."
                waits := waits
                attempts := attempt }
            else
              { result := Except.error
                  ("Transcription failed after " ++ toString maxRetries ++ " attempts: " ++ msg)
                waits := waits
                attempts := attempt }
          else
            { result := Except.error ("Transcription failed: " ++ msg)
              waits := waits
              attempts := attempt }

/-- `transcribeWithWhisper` (lines 26-136): run the bounded-attempt loop
starting at attempt 1. -/
def transcribeWithWhisper (call : Nat → Except JsError String) : WhisperRun :=
  whisperGo call maxRetries 1 [] "Unknown error"

/-!
Pipeline orchestrator: `processAudioPipeline` of processingService.js.
The three external stage adapters are passed in as request/response
functions; a thrown JS error is the `Except.error` branch carrying
`error.message`.
-/

/-- The three stage adapters as seen by the orchestrator:
`transcribeAudio(audioPath)`, `reframeText(transcript)`,
`generateAudio(reframedText, sessionId, userId)` (which returns a bare
filename on success). -/
structure Adapters where
  transcribeAudio : String → Except String String
  reframeText : String → Except String String
  generateAudio : String → String → String → Except String String

/-- An observable event of one pipeline run: a session-store write or an
adapter invocation, in program order. -/
inductive PEvent where
  | update (sessionId : String) (u : SessionUpdate)
  | callTranscriber (audioPath : String)
  | callReframer (text : String)
  | callSynthesizer (text sessionId userId : String)
  deriving Repr, DecidableEq

/-- The object returned by `processAudioPipeline` on normal completion
(lines 65-69). -/
structure PipelineResult where
  transcript : String
  reframedText : String
  generatedAudioUrl : Option String
  deriving Repr, DecidableEq

/-- State of the store after a run, the trace of events the run produced,
how many `updateSession` calls were issued (each drew a fresh
`new Date()`, modelled by `clock tick`), and the run's outcome: the
returned result object or the message of the error the function rejected
with. -/
structure CoreResult where
  store : Store
  trace : List PEvent
  tick : Nat
  result : Except String PipelineResult
  deriving Repr

/-- Line 29: `{ status: 'transcribing' }`. -/
def updTranscribing : SessionUpdate := { status := some "transcribing" }

/-- Line 31: `{ transcript, status: 'transcribed' }`. -/
def updTranscribed (t : String) : SessionUpdate :=
  { transcript := some (some t), status := some "transcribed" }

/-- Line 36: `{ status: 'reframing' }`. -/
def updReframing : SessionUpdate := { status := some "reframing" }

/-- Line 38: `{ reframedText, status: 'reframed' }`. -/
def updReframed (r : String) : SessionUpdate :=
  { reframedText := some (some r), status := some "reframed" }

/-- Line 46: `{ status: 'generating_audio' }`. -/
def updGenerating : SessionUpdate := { status := some "generating_audio" }

/-- Lines 54-56: the informational TTS failure note. -/
def updTtsError (m : String) : SessionUpdate :=
  { error := some (some ("TTS unavailable: " ++ m ++ ". Transcript and reframe are ready.")) }

/-- Lines 60-63: `{ generatedAudioUrl, status: 'completed' }`, where
`generatedAudioUrl` can still be `null` after a TTS failure. -/
def updCompleted (url : Option String) : SessionUpdate :=
  { generatedAudioUrl := some url, status := some "completed" }

/-- Lines 72-75: the catch-block write `{ status: 'error', error: message }`. -/
def updError (m : String) : SessionUpdate :=
  { status := some "error", error := some (some m) }

/-- The inner catch block of lines 50-57 followed by the final
`completed` write of lines 60-63 with `generatedAudioUrl` still `null`:
persist the TTS failure as an informational `error` note, then mark the
session completed anyway. Either write throwing propagates to the outer
catch. -/
def ttsCatch (clock : Nat → Nat) (sessionId transcript reframedText m : String)
    (trace : List PEvent) (st : Store) : CoreResult :=
  match updateSession st sessionId (updTtsError m) (clock 5) with
  | Except.error e2 =>
      { store := st, trace := trace, tick := 6, result := Except.error e2 }
  | Except.ok (st6, _) =>
      match updateSession st6 sessionId (updCompleted none) (clock 6) with
      | Except.error e3 =>
          { store := st6
            trace := trace ++ [PEvent.update sessionId (updTtsError m)]
            tick := 7, result := Except.error e3 }
      | Except.ok (st7, _) =>
          { store := st7
            trace := trace ++ [PEvent.update sessionId (updTtsError m),
              PEvent.update sessionId (updCompleted none)]
            tick := 7
            result := Except.ok
              { transcript := transcript, reframedText := reframedText
                generatedAudioUrl := none } }

/-- Lines 43-63: the optional TTS stage. The `generating_audio` status
write sits inside the inner `try`, so even its failure is treated as a
TTS error; on synthesis success the stored URL is the returned filename
prefixed with `/uploads/` (line 48). -/
def processTtsStage (A : Adapters) (clock : Nat → Nat)
    (sessionId userId transcript reframedText : String)
    (trace : List PEvent) (st : Store) : CoreResult :=
  match updateSession st sessionId updGenerating (clock 4) with
  | Except.error e =>
      ttsCatch clock sessionId transcript reframedText e trace st
  | Except.ok (st5, _) =>
      match A.generateAudio reframedText sessionId userId with
      | Except.error e =>
          ttsCatch clock sessionId transcript reframedText e
            (trace ++ [PEvent.update sessionId updGenerating,
              PEvent.callSynthesizer reframedText sessionId userId]) st5
      | Except.ok audioFilename =>
          match updateSession st5 sessionId
              (updCompleted (some ("/uploads/" ++ audioFilename))) (clock 5) with
          | Except.error e =>
              { store := st5
                trace := trace ++ [PEvent.update sessionId updGenerating,
                  PEvent.callSynthesizer reframedText sessionId userId]
                tick := 6, result := Except.error e }
          | Except.ok (st6, _) =>
              { store := st6
                trace := trace ++ [PEvent.update sessionId updGenerating,
                  PEvent.callSynthesizer reframedText sessionId userId,
                  PEvent.update sessionId
                    (updCompleted (some ("/uploads/" ++ audioFilename)))]
                tick := 6
                result := Except.ok
                  { transcript := transcript, reframedText := reframedText
                    generatedAudioUrl := some ("/uploads/" ++ audioFilename) } }

/-- The body of the outer `try` of `processAudioPipeline` (lines 16-69):
re-fetch the session, require an uploaded audio file, run the three
stages on the most recent file. The TTS stage has its own inner
try/catch (lines 44-57), so a failure there — including a failure of the
`generating_audio` status write itself — is absorbed into an `error`
note and the run still completes. A `result := Except.error m` value is
an exception propagating to the outer catch. -/
def processAudioPipelineCore (A : Adapters) (clock : Nat → Nat) (store : Store)
    (sessionId : String) : CoreResult :=
  match getSession store sessionId with
  | none =>
      { store := store, trace := [], tick := 0
        result := Except.error "Session or audio files not found" }
  | some session =>
      match session.audioFiles.getLast? with
      | none =>
          { store := store, trace := [], tick := 0
            result := Except.error "Session or audio files not found" }
      | some audioFile =>
          match updateSession store sessionId updTranscribing (clock 0) with
          | Except.error e =>
              { store := store, trace := [], tick := 1, result := Except.error e }
          | Except.ok (st1, _) =>
              match A.transcribeAudio audioFile.path with
              | Except.error e =>
                  { store := st1
                    trace := [PEvent.update sessionId updTranscribing,
                      PEvent.callTranscriber audioFile.path]
                    tick := 1, result := Except.error e }
              | Except.ok transcript =>
                  match updateSession st1 sessionId (updTranscribed transcript) (clock 1) with
                  | Except.error e =>
                      { store := st1
                        trace := [PEvent.update sessionId updTranscribing,
                          PEvent.callTranscriber audioFile.path]
                        tick := 2, result := Except.error e }
                  | Except.ok (st2, _) =>
                      match updateSession st2 sessionId updReframing (clock 2) with
                      | Except.error e =>
                          { store := st2
                            trace := [PEvent.update sessionId updTranscribing,
                              PEvent.callTranscriber audioFile.path,
                              PEvent.update sessionId (updTranscribed transcript)]
                            tick := 3, result := Except.error e }
                      | Except.ok (st3, _) =>
                          match A.reframeText transcript with
                          | Except.error e =>
                              { store := st3
                                trace := [PEvent.update sessionId updTranscribing,
                                  PEvent.callTranscriber audioFile.path,
                                  PEvent.update sessionId (updTranscribed transcript),
                                  PEvent.update sessionId updReframing,
                                  PEvent.callReframer transcript]
                                tick := 3, result := Except.error e }
                          | Except.ok reframedText =>
                              match updateSession st3 sessionId (updReframed reframedText) (clock 3) with
                              | Except.error e =>
                                  { store := st3
                                    trace := [PEvent.update sessionId updTranscribing,
                                      PEvent.callTranscriber audioFile.path,
                                      PEvent.update sessionId (updTranscribed transcript),
                                      PEvent.update sessionId updReframing,
                                      PEvent.callReframer transcript]
                                    tick := 4, result := Except.error e }
                              | Except.ok (st4, _) =>
                                  processTtsStage A clock sessionId session.userId
                                    transcript reframedText
                                    [PEvent.update sessionId updTranscribing,
                                      PEvent.callTranscriber audioFile.path,
                                      PEvent.update sessionId (updTranscribed transcript),
                                      PEvent.update sessionId updReframing,
                                      PEvent.callReframer transcript,
                                      PEvent.update sessionId (updReframed reframedText)]
                                    st4

/-- `processAudioPipeline` (lines 15-78): run the try-body; on an escaping
exception the catch block persists `status: 'error'` with the message and
rethrows. When that catch-block write itself throws (the session record
is gone), its own exception replaces the original one, as in JS. -/
def processAudioPipeline (A : Adapters) (clock : Nat → Nat) (store : Store)
    (sessionId : String) : CoreResult :=
  let c := processAudioPipelineCore A clock store sessionId
  match c.result with
  | Except.ok _ => c
  | Except.error msg =>
      match updateSession c.store sessionId (updError msg) (clock c.tick) with
      | Except.ok (st2, _) =>
          { store := st2
            trace := c.trace ++ [PEvent.update sessionId (updError msg)]
            tick := c.tick + 1
            result := Except.error msg }
      | Except.error e2 =>
          { store := c.store, trace := c.trace, tick := c.tick
            result := Except.error e2 }

/-- The upload route (src/routes/sessions.js lines 76-125), from the point
where the stored session has been fetched and ownership verified: append
the new file descriptor to `audioFiles` and set status
`audio_uploaded`. -/
def uploadAudio (store : Store) (sessionId userId : String) (file : AudioFile)
    (now : Nat) : Except String (Store × Session) :=
  match getSession store sessionId with
  | none => Except.error "Session not found"
  | some session =>
      if session.userId ≠ userId then Except.error "Access denied"
      else
        updateSession store sessionId
          { audioFiles := some (session.audioFiles ++ [file])
            status := some "audio_uploaded" } now

/-- The process-trigger route (src/routes/sessions.js lines 128-167):
check existence, ownership and a non-empty `audioFiles`, write status
`processing`, then run the pipeline; if the pipeline rejects, the route's
rejection handler writes `status: 'error'` with the message once more. -/
def triggerProcessing (A : Adapters) (clock : Nat → Nat) (store : Store)
    (sessionId userId : String) (now : Nat) : Except String CoreResult :=
  match getSession store sessionId with
  | none => Except.error "Session not found"
  | some session =>
      if session.userId ≠ userId then Except.error "Access denied"
      else if session.audioFiles.isEmpty then
        Except.error "No audio files uploaded for this session"
      else
        match updateSession store sessionId { status := some "processing" } now with
        | Except.error e => Except.error e
        | Except.ok (st1, _) =>
            let run := processAudioPipeline A clock st1 sessionId
            match run.result with
            | Except.ok _ => Except.ok run
            | Except.error m =>
                match updateSession run.store sessionId (updError m) (clock run.tick) with
                | Except.ok (st2, _) =>
                    Except.ok
                      { store := st2
                        trace := run.trace ++ [PEvent.update sessionId (updError m)]
                        tick := run.tick + 1
                        result := run.result }
                | Except.error _ => Except.ok run

/-- Recognizer for a Reframer invocation event. -/
def isReframerCall : PEvent → Bool
  | PEvent.callReframer _ => true
  | _ => false

/-- Recognizer for a Synthesizer invocation event. -/
def isSynthesizerCall : PEvent → Bool
  | PEvent.callSynthesizer _ _ _ => true
  | _ => false

/-- A store write that neither touches the `error` field nor writes
`null` into a result field: it cannot reset `error`, `transcript`,
`reframedText` or `generatedAudioUrl`. -/
def noResetWrite : PEvent → Prop
  | PEvent.update _ u =>
      u.error = none ∧ u.transcript ≠ some none ∧ u.reframedText ≠ some none ∧
        u.generatedAudioUrl ≠ some none
  | _ => True

/-- Position of a status value on the single combined stage timeline
(status writes interleaved with adapter invocations); odd gaps leave room
for the adapter-call positions. -/
def stageStatusIndex (st : String) : Option Nat :=
  if st = "transcribing" then some 1
  else if st = "transcribed" then some 3
  else if st = "reframing" then some 4
  else if st = "reframed" then some 6
  else if st = "generating_audio" then some 7
  else if st = "completed" then some 9
  else if st = "error" then some 10
  else none

/-- Position of a pipeline event on the combined stage timeline: a status
write sits at its status position, each adapter call sits strictly
between its stage's entry status and its stage's completion status, and a
store write that carries no status (the TTS failure note) has no
position. A strictly increasing timeline therefore says: every entry
status is persisted before its adapter runs, every completion status
after it, statuses are monotonic and no stage is revisited. -/
def stageIndexOpt : PEvent → Option Nat
  | PEvent.update _ u =>
      match u.status with
      | none => none
      | some st => stageStatusIndex st
  | PEvent.callTranscriber _ => some 2
  | PEvent.callReframer _ => some 5
  | PEvent.callSynthesizer _ _ _ => some 8

/-! Concrete fixtures used by the witness theorems and the C4 scenario. -/

/-- A concrete uploaded-file descriptor. -/
def sampleFile : AudioFile :=
  { filename := "audio_1.m4a", originalName := "voice.m4a"
    path := "uploads/S1/audio_1.m4a", size := 2048, mimetype := "audio/m4a"
    uploadedAt := 100 }

/-- A concrete stored session with one uploaded audio file. -/
def sampleSession : Session :=
  { id := "S1", userId := "U1", createdAt := 50, status := "audio_uploaded"
    audioFiles := [sampleFile], transcript := none, reframedText := none
    generatedAudioUrl := none, error := none, updatedAt := some 100 }

/-- A store holding just `sampleSession`. -/
def sampleStore : Store := [sampleSession]

/-- The same session with a leftover `error` note from an earlier run. -/
def errSession : Session := { sampleSession with error := some "old failure" }

/-- A store holding just `errSession`. -/
def errStore : Store := [errSession]

/-- The stage stubs of the §8 scenario: Transcriber returns `hello`,
Reframer returns `HELLO`, Synthesizer returns artifact `a1`. -/
def c4Stubs : Adapters :=
  { transcribeAudio := fun _ => Except.ok "hello"
    reframeText := fun _ => Except.ok "HELLO"
    generateAudio := fun _ _ _ => Except.ok "a1" }

/-- Stubs whose synthesizer always fails. -/
def ttsFailStubs : Adapters :=
  { transcribeAudio := fun _ => Except.ok "hello"
    reframeText := fun _ => Except.ok "HELLO"
    generateAudio := fun _ _ _ => Except.error "voice not enrolled" }

/-- Stubs whose transcriber always fails (retries exhausted inside the
adapter). -/
def transcribeFailStubs : Adapters :=
  { transcribeAudio := fun _ => Except.error "Transcription failed after 3 attempts: socket hang up"
    reframeText := fun _ => Except.ok "HELLO"
    generateAudio := fun _ _ _ => Except.ok "a1" }

/-- A rate-limited attempt outcome (HTTP 429). -/
def rlErr : JsError := { message := "Request failed with status code 429", status := some 429 }

/-- A transient connection failure. -/
def connErr : JsError := { message := "socket hang up", code := some "ECONNRESET" }

/-- A non-retryable failure. -/
def otherErr : JsError := { message := "bad request", status := some 400 }

/-- An attempt sequence that is rate-limited twice and succeeds on the
third attempt. -/
def callRlThenOk (i : Nat) : Except JsError String :=
  if i == 3 then Except.ok "hi" else Except.error rlErr

/-- An attempt sequence that is rate-limited on every attempt. -/
def callRlAlways (_ : Nat) : Except JsError String := Except.error rlErr

/-- An attempt sequence that hits a connection failure on every attempt. -/
def callConnAlways (_ : Nat) : Except JsError String := Except.error connErr

/-- An attempt sequence that fails non-retryably at once. -/
def callOtherAlways (_ : Nat) : Except JsError String := Except.error otherErr

/-- The end-to-end §8 scenario, concretely: create session `S` for owner
`U`, upload one audio file, trigger the run with the `c4Stubs` adapters;
the resulting store (empty if any boundary rejected, which does not
happen). -/
def scenarioStore : Store :=
  match uploadAudio (createSession [] "S" "U" 0).1 "S" "U" sampleFile 1 with
  | Except.error _ => []
  | Except.ok (st2, _) =>
      match triggerProcessing c4Stubs (fun k => 10 + k) st2 "S" "U" 2 with
      | Except.error _ => []
      | Except.ok run => run.store

/-- The session record that the §8 scenario leaves in the store: the
upload route's file descriptor, both text results, and the
`/uploads/`-prefixed artifact reference. -/
def scenarioFinal : Session :=
  { id := "S", userId := "U", createdAt := 0, status := "completed"
    audioFiles := [sampleFile], transcript := some "hello"
    reframedText := some "HELLO", generatedAudioUrl := some "/uploads/a1"
    error := none, updatedAt := some 15 }

/-! Store lemmas shared by the claim proofs. -/

/-- A session found under `sessionId` carries that id. -/
theorem getSession_id {store : Store} {sessionId : String} {s : Session}
    (h : getSession store sessionId = some s) : s.id = sessionId := by
  have hp := List.find?_some h
  simpa using hp

/-- `applyUpdate` never changes the id. -/
theorem applyUpdate_id (s : Session) (u : SessionUpdate) (now : Nat) :
    (applyUpdate s u now).id = s.id := rfl

/-- `updateSession` on a present record succeeds and both persists and
returns the merged record. -/
theorem updateSession_found {store : Store} {sessionId : String} {s : Session}
    (u : SessionUpdate) (now : Nat) (h : getSession store sessionId = some s) :
    updateSession store sessionId u now =
      Except.ok (updStore store sessionId (applyUpdate s u now), applyUpdate s u now) := by
  simp [updateSession, h]

/-- Rewriting the record stored under an id makes `getSession` of that id
return the new record, provided the id was present and the new record
keeps it. -/
theorem getSession_updStore {store : Store} {sessionId : String} {s : Session}
    (s2 : Session) (h : getSession store sessionId = some s) (hid : s2.id = sessionId) :
    getSession (updStore store sessionId s2) sessionId = some s2 := by
  induction store with
  | nil => simp [getSession] at h
  | cons a l ih =>
      by_cases hb : a.id = sessionId
      · simp only [getSession, updStore, List.map_cons]
        rw [if_pos (by simp [hb] : (a.id == sessionId) = true)]
        exact List.find?_cons_of_pos _ (by simp [hid])
      · have hneg : ¬ ((a.id == sessionId) = true) := by simp [hb]
        have h2 : getSession l sessionId = some s := by
          simp only [getSession] at h
          rwa [List.find?_cons_of_neg (p := fun t : Session => t.id == sessionId) _ hneg] at h
        have ih2 := ih h2
        simp only [getSession, updStore, List.map_cons] at ih2 ⊢
        rw [if_neg hneg, List.find?_cons_of_neg (p := fun t : Session => t.id == sessionId) _ hneg]
        exact ih2

/-- Chained form: after an `updateSession`, `getSession` returns the
merged record. -/
theorem getSession_after_update {store : Store} {sessionId : String} {s : Session}
    (u : SessionUpdate) (now : Nat) (h : getSession store sessionId = some s) :
    getSession (updStore store sessionId (applyUpdate s u now)) sessionId =
      some (applyUpdate s u now) :=
  getSession_updStore _ h (by rw [applyUpdate_id, getSession_id h])

/-! The four observable shapes of one pipeline run, by which stage (if
any) fails. These are shared by the claim theorems below. -/

/-- A run in which all three stages succeed. -/
theorem run_all_success (A : Adapters) (clock : Nat → Nat) (store : Store)
    (sessionId : String) (s : Session) (af : AudioFile) (t r a : String)
    (h : getSession store sessionId = some s)
    (ha : s.audioFiles.getLast? = some af)
    (ht : A.transcribeAudio af.path = Except.ok t)
    (hr : A.reframeText t = Except.ok r)
    (hg : A.generateAudio r sessionId s.userId = Except.ok a) :
    (processAudioPipeline A clock store sessionId).result =
        Except.ok
          { transcript := t, reframedText := r,
            generatedAudioUrl := some ("/uploads/" ++ a) } ∧
    (processAudioPipeline A clock store sessionId).trace =
        [PEvent.update sessionId updTranscribing,
         PEvent.callTranscriber af.path,
         PEvent.update sessionId (updTranscribed t),
         PEvent.update sessionId updReframing,
         PEvent.callReframer t,
         PEvent.update sessionId (updReframed r),
         PEvent.update sessionId updGenerating,
         PEvent.callSynthesizer r sessionId s.userId,
         PEvent.update sessionId (updCompleted (some ("/uploads/" ++ a)))] ∧
    getSession (processAudioPipeline A clock store sessionId).store sessionId =
      some (applyUpdate (applyUpdate (applyUpdate (applyUpdate (applyUpdate (applyUpdate s
        updTranscribing (clock 0)) (updTranscribed t) (clock 1)) updReframing (clock 2))
        (updReframed r) (clock 3)) updGenerating (clock 4))
        (updCompleted (some ("/uploads/" ++ a))) (clock 5)) := by
  have e0 := updateSession_found updTranscribing (clock 0) h
  have h1 := getSession_after_update updTranscribing (clock 0) h
  have e1 := updateSession_found (updTranscribed t) (clock 1) h1
  have h2 := getSession_after_update (updTranscribed t) (clock 1) h1
  have e2 := updateSession_found updReframing (clock 2) h2
  have h3 := getSession_after_update updReframing (clock 2) h2
  have e3 := updateSession_found (updReframed r) (clock 3) h3
  have h4 := getSession_after_update (updReframed r) (clock 3) h3
  have e4 := updateSession_found updGenerating (clock 4) h4
  have h5 := getSession_after_update updGenerating (clock 4) h4
  have e5 := updateSession_found (updCompleted (some ("/uploads/" ++ a))) (clock 5) h5
  have h6 := getSession_after_update (updCompleted (some ("/uploads/" ++ a))) (clock 5) h5
  simp only [processAudioPipeline, processAudioPipelineCore, processTtsStage,
    h, ha, e0, ht, e1, e2, hr, e3, e4, hg, e5]
  exact ⟨by trivial, by simp, h6⟩

/-- A run in which the transcription stage fails: the outer catch
persists `status: 'error'` and the run rejects; neither of the later
stages is invoked. -/
theorem run_transcribe_fails (A : Adapters) (clock : Nat → Nat) (store : Store)
    (sessionId : String) (s : Session) (af : AudioFile) (m : String)
    (h : getSession store sessionId = some s)
    (ha : s.audioFiles.getLast? = some af)
    (ht : A.transcribeAudio af.path = Except.error m) :
    (processAudioPipeline A clock store sessionId).result = Except.error m ∧
    (processAudioPipeline A clock store sessionId).trace =
        [PEvent.update sessionId updTranscribing,
         PEvent.callTranscriber af.path,
         PEvent.update sessionId (updError m)] ∧
    getSession (processAudioPipeline A clock store sessionId).store sessionId =
      some (applyUpdate (applyUpdate s updTranscribing (clock 0)) (updError m) (clock 1)) := by
  have e0 := updateSession_found updTranscribing (clock 0) h
  have h1 := getSession_after_update updTranscribing (clock 0) h
  have e1 := updateSession_found (updError m) (clock 1) h1
  have h2 := getSession_after_update (updError m) (clock 1) h1
  simp only [processAudioPipeline, processAudioPipelineCore, h, ha, e0, ht, e1]
  exact ⟨by trivial, by simp, h2⟩

/-- A run in which transcription succeeds but reframing fails: the outer
catch persists `status: 'error'`; synthesis is never invoked. -/
theorem run_reframe_fails (A : Adapters) (clock : Nat → Nat) (store : Store)
    (sessionId : String) (s : Session) (af : AudioFile) (t m : String)
    (h : getSession store sessionId = some s)
    (ha : s.audioFiles.getLast? = some af)
    (ht : A.transcribeAudio af.path = Except.ok t)
    (hr : A.reframeText t = Except.error m) :
    (processAudioPipeline A clock store sessionId).result = Except.error m ∧
    (processAudioPipeline A clock store sessionId).trace =
        [PEvent.update sessionId updTranscribing,
         PEvent.callTranscriber af.path,
         PEvent.update sessionId (updTranscribed t),
         PEvent.update sessionId updReframing,
         PEvent.callReframer t,
         PEvent.update sessionId (updError m)] ∧
    getSession (processAudioPipeline A clock store sessionId).store sessionId =
      some (applyUpdate (applyUpdate (applyUpdate (applyUpdate s
        updTranscribing (clock 0)) (updTranscribed t) (clock 1)) updReframing (clock 2))
        (updError m) (clock 3)) := by
  have e0 := updateSession_found updTranscribing (clock 0) h
  have h1 := getSession_after_update updTranscribing (clock 0) h
  have e1 := updateSession_found (updTranscribed t) (clock 1) h1
  have h2 := getSession_after_update (updTranscribed t) (clock 1) h1
  have e2 := updateSession_found updReframing (clock 2) h2
  have h3 := getSession_after_update updReframing (clock 2) h2
  have e3 := updateSession_found (updError m) (clock 3) h3
  have h4 := getSession_after_update (updError m) (clock 3) h3
  simp only [processAudioPipeline, processAudioPipelineCore, h, ha, e0, ht, e1, e2, hr, e3]
  exact ⟨by trivial, by simp, h4⟩

/-- A run in which transcription and reframing succeed but synthesis
fails: the failure is recorded as an informational `error` note and the
session is still marked `completed` with `generatedAudioUrl` written as
`null`; the run does not reject. -/
theorem run_tts_fails (A : Adapters) (clock : Nat → Nat) (store : Store)
    (sessionId : String) (s : Session) (af : AudioFile) (t r m : String)
    (h : getSession store sessionId = some s)
    (ha : s.audioFiles.getLast? = some af)
    (ht : A.transcribeAudio af.path = Except.ok t)
    (hr : A.reframeText t = Except.ok r)
    (hg : A.generateAudio r sessionId s.userId = Except.error m) :
    (processAudioPipeline A clock store sessionId).result =
        Except.ok { transcript := t, reframedText := r, generatedAudioUrl := none } ∧
    (processAudioPipeline A clock store sessionId).trace =
        [PEvent.update sessionId updTranscribing,
         PEvent.callTranscriber af.path,
         PEvent.update sessionId (updTranscribed t),
         PEvent.update sessionId updReframing,
         PEvent.callReframer t,
         PEvent.update sessionId (updReframed r),
         PEvent.update sessionId updGenerating,
         PEvent.callSynthesizer r sessionId s.userId,
         PEvent.update sessionId (updTtsError m),
         PEvent.update sessionId (updCompleted none)] ∧
    getSession (processAudioPipeline A clock store sessionId).store sessionId =
      some (applyUpdate (applyUpdate (applyUpdate (applyUpdate (applyUpdate (applyUpdate (applyUpdate s
        updTranscribing (clock 0)) (updTranscribed t) (clock 1)) updReframing (clock 2))
        (updReframed r) (clock 3)) updGenerating (clock 4))
        (updTtsError m) (clock 5)) (updCompleted none) (clock 6)) := by
  have e0 := updateSession_found updTranscribing (clock 0) h
  have h1 := getSession_after_update updTranscribing (clock 0) h
  have e1 := updateSession_found (updTranscribed t) (clock 1) h1
  have h2 := getSession_after_update (updTranscribed t) (clock 1) h1
  have e2 := updateSession_found updReframing (clock 2) h2
  have h3 := getSession_after_update updReframing (clock 2) h2
  have e3 := updateSession_found (updReframed r) (clock 3) h3
  have h4 := getSession_after_update (updReframed r) (clock 3) h3
  have e4 := updateSession_found updGenerating (clock 4) h4
  have h5 := getSession_after_update updGenerating (clock 4) h4
  have e5 := updateSession_found (updTtsError m) (clock 5) h5
  have h6 := getSession_after_update (updTtsError m) (clock 5) h5
  have e6 := updateSession_found (updCompleted none) (clock 6) h6
  have h7 := getSession_after_update (updCompleted none) (clock 6) h6
  simp only [processAudioPipeline, processAudioPipelineCore, processTtsStage, ttsCatch,
    h, ha, e0, ht, e1, e2, hr, e3, e4, hg, e5, e6]
  exact ⟨by trivial, by simp, h7⟩

/-! Claim theorems. -/

/-- C3: with the attempt budget of 3, a boundary call that is
rate-limited on attempts 1 and 2 and succeeds on attempt 3 performs
exactly two waits, of `min(1 * 10s, 60s) = 10s` and
`min(2 * 10s, 60s) = 20s`, before returning the successful result on the
third attempt; a call that is rate-limited on every attempt makes exactly
3 attempts and fails with the rate-limit-exceeded condition. -/
theorem C3_rate_limit_backoff (call call2 : Nat → Except JsError String)
    (t : String) (e1 e2 f1 f2 f3 : JsError)
    (h1 : call 1 = Except.error e1) (h1r : isRateLimit e1 = true)
    (h2 : call 2 = Except.error e2) (h2r : isRateLimit e2 = true)
    (h3 : call 3 = Except.ok t)
    (g1 : call2 1 = Except.error f1) (g1r : isRateLimit f1 = true)
    (g2 : call2 2 = Except.error f2) (g2r : isRateLimit f2 = true)
    (g3 : call2 3 = Except.error f3) (g3r : isRateLimit f3 = true) :
    transcribeWithWhisper call =
      { result := Except.ok t
        waits := [min (1 * 10000) 60000, min (2 * 10000) 60000]
        attempts := 3 } ∧
    transcribeWithWhisper call2 =
      { result := Except.error
          "Transcription failed: Rate limit exceeded. Please try again in a few minutes."
        waits := [min (1 * 10000) 60000, min (2 * 10000) 60000]
        attempts := 3 } := by
  constructor
  · simp [transcribeWithWhisper, whisperGo, maxRetries, h1, h1r, h2, h2r, h3]
  · simp [transcribeWithWhisper, whisperGo, maxRetries, g1, g1r, g2, g2r, g3, g3r]

/-- Witness for C3 at concrete attempt sequences. -/
theorem C3_rate_limit_backoff_witness :
    transcribeWithWhisper callRlThenOk =
      { result := Except.ok "hi"
        waits := [min (1 * 10000) 60000, min (2 * 10000) 60000]
        attempts := 3 } ∧
    transcribeWithWhisper callRlAlways =
      { result := Except.error
          "Transcription failed: Rate limit exceeded. Please try again in a few minutes."
        waits := [min (1 * 10000) 60000, min (2 * 10000) 60000]
        attempts := 3 } :=
  C3_rate_limit_backoff callRlThenOk callRlAlways "hi" rlErr rlErr rlErr rlErr rlErr
    (by decide) (by decide) (by decide) (by decide) (by decide)
    (by decide) (by decide) (by decide) (by decide) (by decide) (by decide)

/-- C5: a boundary call whose failures are transient connection errors is
retried after waits of `attempt * 3s` (3s then 6s); when all 3 attempts
are exhausted the engine fails with the retries-exhausted condition
carrying the last underlying error's message; a failure that is neither
rate-limited nor a transient connection error fails immediately after a
single attempt with no wait. -/
theorem C5_connection_retry (call call2 : Nat → Except JsError String)
    (e1 e2 e3 g : JsError)
    (h1 : call 1 = Except.error e1) (h1c : isConnectionError e1 = true)
    (h1r : isRateLimit e1 = false)
    (h2 : call 2 = Except.error e2) (h2c : isConnectionError e2 = true)
    (h2r : isRateLimit e2 = false)
    (h3 : call 3 = Except.error e3) (h3r : isRateLimit e3 = false)
    (hm : e3.message ≠ "")
    (g1 : call2 1 = Except.error g) (g1c : isConnectionError g = false)
    (g1r : isRateLimit g = false) :
    transcribeWithWhisper call =
      { result := Except.error ("Transcription failed after 3 attempts: " ++ e3.message)
        waits := [1 * 3000, 2 * 3000]
        attempts := 3 } ∧
    transcribeWithWhisper call2 =
      { result := Except.error ("Transcription failed: " ++ errMessage g)
        waits := []
        attempts := 1 } := by
  constructor
  · simp only [transcribeWithWhisper, whisperGo, maxRetries, h1, h1c, h1r, h2, h2c, h2r, h3,
      h3r, errMessage, if_neg hm]
    simp
    rfl
  · simp [transcribeWithWhisper, whisperGo, maxRetries, g1, g1c, g1r]

/-- Witness for C5 at concrete attempt sequences. -/
theorem C5_connection_retry_witness :
    transcribeWithWhisper callConnAlways =
      { result := Except.error ("Transcription failed after 3 attempts: " ++ connErr.message)
        waits := [1 * 3000, 2 * 3000]
        attempts := 3 } ∧
    transcribeWithWhisper callOtherAlways =
      { result := Except.error ("Transcription failed: " ++ errMessage otherErr)
        waits := []
        attempts := 1 } :=
  C5_connection_retry callConnAlways callOtherAlways connErr connErr connErr otherErr
    (by decide) (by decide) (by decide) (by decide) (by decide) (by decide)
    (by decide) (by decide) (by decide) (by decide) (by decide) (by decide)

/-- C1: when transcription and reframing succeed but every synthesis
attempt fails, the run still terminates normally with status `completed`
(never `error`), `generatedAudioUrl` null, `error` holding the
synthesis-related note, and the persisted transcript and reframed text
exactly the stage outputs, untouched by the synthesis failure. -/
theorem C1_synthesis_noncritical (A : Adapters) (clock : Nat → Nat) (store : Store)
    (sessionId : String) (s : Session) (af : AudioFile) (t r m : String)
    (h : getSession store sessionId = some s)
    (ha : s.audioFiles.getLast? = some af)
    (ht : A.transcribeAudio af.path = Except.ok t)
    (hr : A.reframeText t = Except.ok r)
    (hg : A.generateAudio r sessionId s.userId = Except.error m) :
    ∃ s2, getSession (processAudioPipeline A clock store sessionId).store sessionId = some s2 ∧
      s2.status = "completed" ∧
      s2.status ≠ "error" ∧
      s2.generatedAudioUrl = none ∧
      s2.error = some ("TTS unavailable: " ++ m ++ ". Transcript and reframe are ready.") ∧
      s2.transcript = some t ∧
      s2.reframedText = some r ∧
      (processAudioPipeline A clock store sessionId).result =
        Except.ok { transcript := t, reframedText := r, generatedAudioUrl := none } := by
  obtain ⟨hres, htr, hst⟩ := run_tts_fails A clock store sessionId s af t r m h ha ht hr hg
  refine ⟨_, hst, ?_, ?_, ?_, ?_, ?_, ?_, hres⟩ <;>
    simp [applyUpdate, updTranscribing, updTranscribed, updReframing, updReframed,
      updGenerating, updTtsError, updCompleted]

/-- Witness for C1: the synthesis-failing stubs on the sample store. -/
theorem C1_synthesis_noncritical_witness :
    ∃ s2, getSession (processAudioPipeline ttsFailStubs id sampleStore "S1").store "S1" = some s2 ∧
      s2.status = "completed" ∧
      s2.status ≠ "error" ∧
      s2.generatedAudioUrl = none ∧
      s2.error = some ("TTS unavailable: " ++ "voice not enrolled" ++ ". Transcript and reframe are ready.") ∧
      s2.transcript = some "hello" ∧
      s2.reframedText = some "HELLO" ∧
      (processAudioPipeline ttsFailStubs id sampleStore "S1").result =
        Except.ok { transcript := "hello", reframedText := "HELLO", generatedAudioUrl := none } :=
  C1_synthesis_noncritical ttsFailStubs id sampleStore "S1" sampleSession sampleFile
    "hello" "HELLO" "voice not enrolled" (by decide) (by decide) rfl rfl rfl

/-- C2: when the transcription stage fails (its internal retries already
exhausted inside the adapter), the run rejects with that failure, the
session is persisted with status `error` and the failure's message, the
transcript and reframed text stay unset, and neither the Reframer nor the
Synthesizer is ever invoked. -/
theorem C2_transcription_critical (A : Adapters) (clock : Nat → Nat) (store : Store)
    (sessionId : String) (s : Session) (af : AudioFile) (m : String)
    (h : getSession store sessionId = some s)
    (ha : s.audioFiles.getLast? = some af)
    (hT : s.transcript = none) (hR : s.reframedText = none)
    (ht : A.transcribeAudio af.path = Except.error m) :
    (processAudioPipeline A clock store sessionId).result = Except.error m ∧
    (∃ s2, getSession (processAudioPipeline A clock store sessionId).store sessionId = some s2 ∧
      s2.status = "error" ∧ s2.error = some m ∧
      s2.transcript = none ∧ s2.reframedText = none) ∧
    (∀ ev ∈ (processAudioPipeline A clock store sessionId).trace,
      isReframerCall ev = false ∧ isSynthesizerCall ev = false) := by
  obtain ⟨hres, htr, hst⟩ := run_transcribe_fails A clock store sessionId s af m h ha ht
  refine ⟨hres, ⟨_, hst, ?_, ?_, ?_, ?_⟩, ?_⟩
  · simp [applyUpdate, updTranscribing, updError]
  · simp [applyUpdate, updTranscribing, updError]
  · simp [applyUpdate, updTranscribing, updError, hT]
  · simp [applyUpdate, updTranscribing, updError, hR]
  · rw [htr]
    intro ev hev
    simp only [List.mem_cons, List.not_mem_nil, or_false] at hev
    rcases hev with h1 | h1 | h1 <;> subst h1 <;> exact ⟨rfl, rfl⟩

/-- Witness for C2: the transcription-failing stubs on the sample store. -/
theorem C2_transcription_critical_witness :
    (processAudioPipeline transcribeFailStubs id sampleStore "S1").result =
      Except.error "Transcription failed after 3 attempts: socket hang up" ∧
    (∃ s2, getSession (processAudioPipeline transcribeFailStubs id sampleStore "S1").store "S1" = some s2 ∧
      s2.status = "error" ∧
      s2.error = some "Transcription failed after 3 attempts: socket hang up" ∧
      s2.transcript = none ∧ s2.reframedText = none) ∧
    (∀ ev ∈ (processAudioPipeline transcribeFailStubs id sampleStore "S1").trace,
      isReframerCall ev = false ∧ isSynthesizerCall ev = false) :=
  C2_transcription_critical transcribeFailStubs id sampleStore "S1" sampleSession sampleFile
    "Transcription failed after 3 attempts: socket hang up"
    (by decide) (by decide) (by decide) (by decide) rfl

/-- C9: a fully successful run on a session whose `error` field is
already populated ends `completed` with that prior `error` value intact:
the final `completed` write carries only `generatedAudioUrl` and
`status`, and no write of a fully successful run touches `error` or
writes null into a result field. -/
theorem C9_error_field_preserved (A : Adapters) (clock : Nat → Nat) (store : Store)
    (sessionId : String) (s : Session) (af : AudioFile) (t r a em : String)
    (h : getSession store sessionId = some s)
    (he : s.error = some em)
    (ha : s.audioFiles.getLast? = some af)
    (ht : A.transcribeAudio af.path = Except.ok t)
    (hr : A.reframeText t = Except.ok r)
    (hg : A.generateAudio r sessionId s.userId = Except.ok a) :
    ∃ s2, getSession (processAudioPipeline A clock store sessionId).store sessionId = some s2 ∧
      s2.status = "completed" ∧
      s2.error = some em ∧
      s2.transcript = some t ∧
      s2.reframedText = some r ∧
      s2.generatedAudioUrl = some ("/uploads/" ++ a) ∧
      (updCompleted (some ("/uploads/" ++ a))).transcript = none ∧
      (updCompleted (some ("/uploads/" ++ a))).reframedText = none ∧
      (updCompleted (some ("/uploads/" ++ a))).error = none ∧
      (updCompleted (some ("/uploads/" ++ a))).audioFiles = none ∧
      (processAudioPipeline A clock store sessionId).trace.getLast? =
        some (PEvent.update sessionId (updCompleted (some ("/uploads/" ++ a)))) ∧
      (∀ ev ∈ (processAudioPipeline A clock store sessionId).trace, noResetWrite ev) := by
  obtain ⟨hres, htr, hst⟩ := run_all_success A clock store sessionId s af t r a h ha ht hr hg
  refine ⟨_, hst, ?_, ?_, ?_, ?_, ?_, rfl, rfl, rfl, rfl, ?_, ?_⟩
  · simp [applyUpdate, updTranscribing, updTranscribed, updReframing, updReframed,
      updGenerating, updCompleted]
  · simp [applyUpdate, updTranscribing, updTranscribed, updReframing, updReframed,
      updGenerating, updCompleted, he]
  · simp [applyUpdate, updTranscribing, updTranscribed, updReframing, updReframed,
      updGenerating, updCompleted]
  · simp [applyUpdate, updTranscribing, updTranscribed, updReframing, updReframed,
      updGenerating, updCompleted]
  · simp [applyUpdate, updTranscribing, updTranscribed, updReframing, updReframed,
      updGenerating, updCompleted]
  · rw [htr]; rfl
  · rw [htr]
    intro ev hev
    simp only [List.mem_cons, List.not_mem_nil, or_false] at hev
    rcases hev with h1 | h1 | h1 | h1 | h1 | h1 | h1 | h1 | h1 <;> subst h1 <;>
      simp [noResetWrite, updTranscribing, updTranscribed, updReframing, updReframed,
        updGenerating, updCompleted]

/-- Witness for C9: successful stubs over a store whose session carries a
leftover error note. -/
theorem C9_error_field_preserved_witness :
    ∃ s2, getSession (processAudioPipeline c4Stubs id errStore "S1").store "S1" = some s2 ∧
      s2.status = "completed" ∧
      s2.error = some "old failure" ∧
      s2.transcript = some "hello" ∧
      s2.reframedText = some "HELLO" ∧
      s2.generatedAudioUrl = some ("/uploads/" ++ "a1") ∧
      (updCompleted (some ("/uploads/" ++ "a1"))).transcript = none ∧
      (updCompleted (some ("/uploads/" ++ "a1"))).reframedText = none ∧
      (updCompleted (some ("/uploads/" ++ "a1"))).error = none ∧
      (updCompleted (some ("/uploads/" ++ "a1"))).audioFiles = none ∧
      (processAudioPipeline c4Stubs id errStore "S1").trace.getLast? =
        some (PEvent.update "S1" (updCompleted (some ("/uploads/" ++ "a1")))) ∧
      (∀ ev ∈ (processAudioPipeline c4Stubs id errStore "S1").trace, noResetWrite ev) :=
  C9_error_field_preserved c4Stubs id errStore "S1" errSession sampleFile
    "hello" "HELLO" "a1" "old failure" (by decide) (by decide) (by decide) rfl rfl rfl

/-- C8: within one run on a session with at least one audio file, the
events of the run — status writes and adapter invocations — occupy
strictly increasing positions on the stage timeline, whatever the
adapters return: each stage's entry status is persisted before that
stage's adapter is invoked, its completion status after the adapter
returns, statuses never regress and no stage is revisited. -/
theorem C8_stage_timeline_monotone (A : Adapters) (clock : Nat → Nat) (store : Store)
    (sessionId : String) (s : Session) (af : AudioFile)
    (h : getSession store sessionId = some s)
    (ha : s.audioFiles.getLast? = some af) :
    List.Pairwise (fun i j => i < j)
      ((processAudioPipeline A clock store sessionId).trace.filterMap stageIndexOpt) := by
  cases ht : A.transcribeAudio af.path with
  | error m =>
      obtain ⟨-, htr, -⟩ := run_transcribe_fails A clock store sessionId s af m h ha ht
      rw [htr]
      simp [List.filterMap_cons, stageIndexOpt, stageStatusIndex, updTranscribing,
        updTranscribed, updReframing, updReframed, updGenerating, updTtsError,
        updCompleted, updError]
  | ok t =>
      cases hr : A.reframeText t with
      | error m =>
          obtain ⟨-, htr, -⟩ := run_reframe_fails A clock store sessionId s af t m h ha ht hr
          rw [htr]
          simp [List.filterMap_cons, stageIndexOpt, stageStatusIndex, updTranscribing,
            updTranscribed, updReframing, updReframed, updGenerating, updTtsError,
            updCompleted, updError]
      | ok r =>
          cases hg : A.generateAudio r sessionId s.userId with
          | error m =>
              obtain ⟨-, htr, -⟩ :=
                run_tts_fails A clock store sessionId s af t r m h ha ht hr hg
              rw [htr]
              simp [List.filterMap_cons, stageIndexOpt, stageStatusIndex, updTranscribing,
                updTranscribed, updReframing, updReframed, updGenerating, updTtsError,
                updCompleted, updError]
          | ok a =>
              obtain ⟨-, htr, -⟩ :=
                run_all_success A clock store sessionId s af t r a h ha ht hr hg
              rw [htr]
              simp [List.filterMap_cons, stageIndexOpt, stageStatusIndex, updTranscribing,
                updTranscribed, updReframing, updReframed, updGenerating, updTtsError,
                updCompleted, updError]

/-- Witness for C8: the successful stubs on the sample store. -/
theorem C8_stage_timeline_monotone_witness :
    List.Pairwise (fun i j => i < j)
      ((processAudioPipeline c4Stubs id sampleStore "S1").trace.filterMap stageIndexOpt) :=
  C8_stage_timeline_monotone c4Stubs id sampleStore "S1" sampleSession sampleFile
    (by decide) (by decide)

/-- C6: on an existing id, `update` with `{status: "x"}` followed by
`get` returns status `x` with an `updatedAt` strictly greater than the
record's previous one (the fresh clock reading being later than the old
one); `update` merges exactly the given fields into the stored record,
refreshes `updatedAt`, and returns the new full record; `update` on a
non-existent id fails with the not-found condition. -/
theorem C6_update_merge_semantics (store store2 : Store) (sessionId id2 : String)
    (s : Session) (u : SessionUpdate) (t t0 : Nat)
    (h : getSession store sessionId = some s)
    (hup : s.updatedAt = some t0) (htt : t0 < t)
    (h2 : getSession store2 id2 = none) :
    (∃ st2, updateSession store sessionId { status := some "x" } t =
        Except.ok (st2, applyUpdate s { status := some "x" } t) ∧
      ∃ s2, getSession st2 sessionId = some s2 ∧ s2.status = "x" ∧
        ∃ t2, s2.updatedAt = some t2 ∧ t0 < t2) ∧
    updateSession store sessionId u t =
      Except.ok (updStore store sessionId (applyUpdate s u t), applyUpdate s u t) ∧
    ((applyUpdate s u t).status = u.status.getD s.status ∧
      (applyUpdate s u t).audioFiles = u.audioFiles.getD s.audioFiles ∧
      (applyUpdate s u t).transcript = u.transcript.getD s.transcript ∧
      (applyUpdate s u t).reframedText = u.reframedText.getD s.reframedText ∧
      (applyUpdate s u t).generatedAudioUrl = u.generatedAudioUrl.getD s.generatedAudioUrl ∧
      (applyUpdate s u t).error = u.error.getD s.error ∧
      (applyUpdate s u t).id = s.id ∧
      (applyUpdate s u t).userId = s.userId ∧
      (applyUpdate s u t).createdAt = s.createdAt ∧
      (applyUpdate s u t).updatedAt = some t) ∧
    updateSession store2 id2 u t = Except.error "Session not found" := by
  refine ⟨⟨_, updateSession_found _ t h,
      _, getSession_after_update { status := some "x" } t h, rfl, t, rfl, htt⟩,
    updateSession_found u t h,
    ⟨rfl, rfl, rfl, rfl, rfl, rfl, rfl, rfl, rfl, rfl⟩, ?_⟩
  simp [updateSession, h2]

/-- Witness for C6 on a one-session store and the empty store. -/
theorem C6_update_merge_semantics_witness :
    (∃ st2, updateSession sampleStore "S1" { status := some "x" } 101 =
        Except.ok (st2, applyUpdate sampleSession { status := some "x" } 101) ∧
      ∃ s2, getSession st2 "S1" = some s2 ∧ s2.status = "x" ∧
        ∃ t2, s2.updatedAt = some t2 ∧ 100 < t2) ∧
    updateSession sampleStore "S1" { error := some (some "note") } 101 =
      Except.ok
        (updStore sampleStore "S1" (applyUpdate sampleSession { error := some (some "note") } 101),
          applyUpdate sampleSession { error := some (some "note") } 101) ∧
    ((applyUpdate sampleSession { error := some (some "note") } 101).status =
        (SessionUpdate.status { error := some (some "note") }).getD sampleSession.status ∧
      (applyUpdate sampleSession { error := some (some "note") } 101).audioFiles =
        (SessionUpdate.audioFiles { error := some (some "note") }).getD sampleSession.audioFiles ∧
      (applyUpdate sampleSession { error := some (some "note") } 101).transcript =
        (SessionUpdate.transcript { error := some (some "note") }).getD sampleSession.transcript ∧
      (applyUpdate sampleSession { error := some (some "note") } 101).reframedText =
        (SessionUpdate.reframedText { error := some (some "note") }).getD sampleSession.reframedText ∧
      (applyUpdate sampleSession { error := some (some "note") } 101).generatedAudioUrl =
        (SessionUpdate.generatedAudioUrl { error := some (some "note") }).getD sampleSession.generatedAudioUrl ∧
      (applyUpdate sampleSession { error := some (some "note") } 101).error =
        (SessionUpdate.error { error := some (some "note") }).getD sampleSession.error ∧
      (applyUpdate sampleSession { error := some (some "note") } 101).id = sampleSession.id ∧
      (applyUpdate sampleSession { error := some (some "note") } 101).userId = sampleSession.userId ∧
      (applyUpdate sampleSession { error := some (some "note") } 101).createdAt = sampleSession.createdAt ∧
      (applyUpdate sampleSession { error := some (some "note") } 101).updatedAt = some 101) ∧
    updateSession [] "Z" { error := some (some "note") } 101 = Except.error "Session not found" :=
  C6_update_merge_semantics sampleStore [] "S1" "Z" sampleSession
    { error := some (some "note") } 101 100 (by decide) rfl (by decide) rfl

/-- C7: `listByOwner` returns exactly the stored sessions whose owner
matches — every returned session has that owner, a session is returned
iff it is stored with that owner, and the result is a permutation of the
matching records — sorted newest-first by `createdAt`. -/
theorem C7_list_by_owner (store : Store) (owner : String) :
    (∀ s2 ∈ getUserSessions store owner, s2.userId = owner) ∧
    (∀ s2, s2 ∈ getUserSessions store owner ↔ s2 ∈ store ∧ s2.userId = owner) ∧
    (getUserSessions store owner).Perm (store.filter (fun s2 => s2.userId == owner)) ∧
    List.Sorted newestFirst (getUserSessions store owner) := by
  have hperm : (getUserSessions store owner).Perm
      (store.filter (fun s2 => s2.userId == owner)) :=
    List.perm_insertionSort newestFirst _
  have hmem : ∀ s2, s2 ∈ getUserSessions store owner ↔ s2 ∈ store ∧ s2.userId = owner := by
    intro s2
    rw [hperm.mem_iff, List.mem_filter]
    simp
  exact ⟨fun s2 hs2 => ((hmem s2).mp hs2).2, hmem, hperm,
    List.sorted_insertionSort newestFirst _⟩

/-- C10: a freshly created session record has no `updatedAt` key (and
`get` before any update returns it that way); the first `updateSession`
is what makes `updatedAt` appear, set to that update's clock reading. -/
theorem C10_updatedAt_absent_until_update (store : Store) (sessionId userId : String)
    (now t : Nat) (u : SessionUpdate) :
    (createSession store sessionId userId now).2.updatedAt = none ∧
    getSession (createSession store sessionId userId now).1 sessionId =
      some (createSession store sessionId userId now).2 ∧
    updateSession (createSession store sessionId userId now).1 sessionId u t =
      Except.ok
        (updStore (createSession store sessionId userId now).1 sessionId
          (applyUpdate (createSession store sessionId userId now).2 u t),
          applyUpdate (createSession store sessionId userId now).2 u t) ∧
    (applyUpdate (createSession store sessionId userId now).2 u t).updatedAt = some t ∧
    getSession
        (updStore (createSession store sessionId userId now).1 sessionId
          (applyUpdate (createSession store sessionId userId now).2 u t)) sessionId =
      some (applyUpdate (createSession store sessionId userId now).2 u t) := by
  have hget : getSession (createSession store sessionId userId now).1 sessionId =
      some (createSession store sessionId userId now).2 := by
    simp [createSession, getSession, List.find?_cons_of_pos]
  exact ⟨rfl, hget, updateSession_found u t hget, rfl, getSession_after_update u t hget⟩

/-- C4 counterexample: in the §8 scenario (session `S`, owner `U`, one
uploaded file, stubs returning `hello` / `HELLO` / artifact `a1`) the
final record's `generatedAudioUrl` is `/uploads/a1` — the orchestrator
prefixes the synthesizer's returned filename with `/uploads/` — not the
bare artifact `a1` the claim states. -/
theorem C4_scenario_counterexample :
    getSession scenarioStore "S" = some scenarioFinal ∧
    scenarioFinal.status = "completed" ∧
    scenarioFinal.transcript = some "hello" ∧
    scenarioFinal.reframedText = some "HELLO" ∧
    scenarioFinal.generatedAudioUrl ≠ some "a1" ∧
    scenarioFinal.generatedAudioUrl = some "/uploads/a1" := by
  exact ⟨by decide, rfl, rfl, rfl, by decide, rfl⟩

/-- C4 amended: create a session, upload one audio file, trigger the run
with the Transcriber stub returning `hello`, Reframer stub returning
`HELLO`, Synthesizer stub returning artifact `a1` — the final `get`
yields status `completed`, transcript `hello`, reframedText `HELLO`, and
`generatedAudioUrl` `/uploads/a1` (the orchestrator stores the
synthesizer's artifact filename prefixed with `/uploads/`). -/
theorem C4_scenario_amended (sessionId userId : String) (file : AudioFile)
    (clock : Nat → Nat) (n0 n1 n2 : Nat) :
    ∃ st1 s1 run s2,
      uploadAudio (createSession [] sessionId userId n0).1 sessionId userId file n1 =
        Except.ok (st1, s1) ∧
      triggerProcessing c4Stubs clock st1 sessionId userId n2 = Except.ok run ∧
      run.result =
        Except.ok
          { transcript := "hello", reframedText := "HELLO"
            generatedAudioUrl := some "/uploads/a1" } ∧
      getSession run.store sessionId = some s2 ∧
      s2.status = "completed" ∧ s2.transcript = some "hello" ∧
      s2.reframedText = some "HELLO" ∧ s2.generatedAudioUrl = some "/uploads/a1" := by
  have hget0 : getSession (createSession [] sessionId userId n0).1 sessionId =
      some (createSession [] sessionId userId n0).2 := by
    simp [createSession, getSession, List.find?_cons_of_pos]
  have hupload : uploadAudio (createSession [] sessionId userId n0).1 sessionId userId file n1 =
      Except.ok
        (updStore (createSession [] sessionId userId n0).1 sessionId
          (applyUpdate (createSession [] sessionId userId n0).2
            { audioFiles := some ((createSession [] sessionId userId n0).2.audioFiles ++ [file])
              status := some "audio_uploaded" } n1),
         applyUpdate (createSession [] sessionId userId n0).2
            { audioFiles := some ((createSession [] sessionId userId n0).2.audioFiles ++ [file])
              status := some "audio_uploaded" } n1) := by
    simp only [uploadAudio, hget0]
    rw [if_neg (fun hc => hc rfl)]
    exact updateSession_found _ n1 hget0
  have hget1 := getSession_after_update
    { audioFiles := some ((createSession [] sessionId userId n0).2.audioFiles ++ [file])
      status := some "audio_uploaded" } n1 hget0
  have eProc := updateSession_found { status := some "processing" } n2 hget1
  have hget2 := getSession_after_update { status := some "processing" } n2 hget1
  have hgl : (applyUpdate
      (applyUpdate (createSession [] sessionId userId n0).2
        { audioFiles := some ((createSession [] sessionId userId n0).2.audioFiles ++ [file])
          status := some "audio_uploaded" } n1)
      { status := some "processing" } n2).audioFiles.getLast? = some file := by
    simp [applyUpdate, createSession]
  obtain ⟨hres, htr, hst⟩ := run_all_success c4Stubs clock _ sessionId _ file
    "hello" "HELLO" "a1" hget2 hgl rfl rfl rfl
  have htrig : triggerProcessing c4Stubs clock
      (updStore (createSession [] sessionId userId n0).1 sessionId
        (applyUpdate (createSession [] sessionId userId n0).2
          { audioFiles := some ((createSession [] sessionId userId n0).2.audioFiles ++ [file])
            status := some "audio_uploaded" } n1)) sessionId userId n2 =
      Except.ok (processAudioPipeline c4Stubs clock
        (updStore
          (updStore (createSession [] sessionId userId n0).1 sessionId
            (applyUpdate (createSession [] sessionId userId n0).2
              { audioFiles := some ((createSession [] sessionId userId n0).2.audioFiles ++ [file])
                status := some "audio_uploaded" } n1))
          sessionId
          (applyUpdate
            (applyUpdate (createSession [] sessionId userId n0).2
              { audioFiles := some ((createSession [] sessionId userId n0).2.audioFiles ++ [file])
                status := some "audio_uploaded" } n1)
            { status := some "processing" } n2))
        sessionId) := by
    simp only [triggerProcessing, hget1]
    rw [if_neg (fun hc => hc rfl)]
    rw [if_neg (by simp [applyUpdate, createSession] : ¬ ((applyUpdate
      (createSession [] sessionId userId n0).2
      { audioFiles := some ((createSession [] sessionId userId n0).2.audioFiles ++ [file])
        status := some "audio_uploaded" } n1).audioFiles.isEmpty = true))]
    simp only [eProc, hres]
  refine ⟨_, _, _, _, hupload, htrig, hres, hst, ?_, ?_, ?_, ?_⟩ <;>
    simp [applyUpdate, updTranscribing, updTranscribed, updReframing, updReframed,
      updGenerating, updCompleted]
